import Mathlib

/-!
A shallow embedding of the watch-mode orchestrator in `lib/watch.js` of
node-elm-review, together with theorems checking the natural-language
specification against it.

The embedding models:
* the manifest (`elm.json`) change handler and its restart/teardown protocol;
* the configuration change handler (`watchConfiguration`) and the teardown
  callback passed to it from `watchFiles`;
* the per-source-file `add`/`change`/`unlink` handlers and the in-memory
  file cache they consult and mutate;
* the debounced suppressed-errors refresh;
* the once-per-process stdin flush guard;
* the watcher event registrations (`.on(...)` chains) and the source-file
  watcher's glob/ignore configuration.

Asynchronous effects are modelled as explicit result records or as scripts of
atomic actions separated by the `await` suspension points of the source.
-/

namespace Watch

/-- JSON values as read by `FS.readJsonFile` for the `elm.json` manifest.
Objects keep their fields in insertion order, as `JSON.parse` does. -/
inductive Json where
  | null
  | bool (b : Bool)
  | num (n : Int)
  | str (s : String)
  | arr (xs : List Json)
  | obj (fields : List (String × Json))
deriving Repr

mutual

/-- `JSON.stringify` on parsed JSON values (string escaping omitted; the
manifest handler only compares the two serializations for equality). -/
def Json.stringify : Json → String
  | .null => "null"
  | .bool true => "true"
  | .bool false => "false"
  | .num n => toString n
  | .str s => "\"" ++ s ++ "\""
  | .arr xs => "[" ++ Json.stringifyElems xs ++ "]"
  | .obj fs => "\x7b" ++ Json.stringifyFields fs ++ "\x7d"

/-- Comma-separated serialization of a JSON array's elements. -/
def Json.stringifyElems : List Json → String
  | [] => ""
  | [x] => Json.stringify x
  | x :: y :: xs => Json.stringify x ++ "," ++ Json.stringifyElems (y :: xs)

/-- Comma-separated serialization of a JSON object's fields. -/
def Json.stringifyFields : List (String × Json) → String
  | [] => ""
  | [(k, v)] => "\"" ++ k ++ "\":" ++ Json.stringify v
  | (k, v) :: f :: fs =>
      "\"" ++ k ++ "\":" ++ Json.stringify v ++ "," ++ Json.stringifyFields (f :: fs)

end

/-- The five watch handles created by `watchFiles` / `watchConfiguration`:
`elmJsonWatcher` (manifest), `readmeWatcher`, `fileWatcher` (source files),
`suppressedErrorsWatcher` (suppression folder) and `configurationWatcher`. -/
inductive Handle where
  | manifest
  | readme
  | sourceFiles
  | suppressionFolder
  | configurationFiles
deriving DecidableEq, Repr

/-- The handles whose `close()` is started by the manifest change handler's
`Promise.all` (watch.js lines 75-81): `elmJsonWatcher`, `readmeWatcher` when a
readme is watched, `fileWatcher`, `suppressedErrorsWatcher`, and
`configurationWatcher` when a configuration watcher exists. -/
def manifestTeardownCloses (hasReadme hasConfig : Bool) : List Handle :=
  [Handle.manifest]
    ++ (if hasReadme then [Handle.readme] else [])
    ++ [Handle.sourceFiles, Handle.suppressionFolder]
    ++ (if hasConfig then [Handle.configurationFiles] else [])

/-- The handles whose `close()` is started by the `Promise.all` inside the
callback that `watchFiles` passes to `watchConfiguration` (watch.js lines
279-284): the configuration watcher itself is absent from this list. -/
def configCallbackCloses (hasReadme : Bool) : List Handle :=
  [Handle.manifest]
    ++ (if hasReadme then [Handle.readme] else [])
    ++ [Handle.sourceFiles, Handle.suppressionFolder]

/-- Atomic actions of the two restart paths, in source order; `awaitCloses`
marks the suspension point where the handler awaits pending `close()` calls
and other handlers may run. -/
inductive RestartAction where
  | updateCachedManifest
  | disableReview
  | clearSuppressionTimer
  | beginClose (h : Handle)
  | awaitCloses
  | clearConsoleOrLog
  | invokeRebuild
deriving DecidableEq, Repr

/-- The manifest change handler's actions when the new manifest differs
(watch.js lines 71-93): update the cached content, rebind `runReview` to a
no-op, clear the suppression timer, start and await all handle closes, clear
the console / log, and call `rebuildAndRewatch`. -/
def manifestRestartScript (hasReadme hasConfig : Bool) : List RestartAction :=
  [RestartAction.updateCachedManifest, RestartAction.disableReview,
   RestartAction.clearSuppressionTimer]
    ++ (manifestTeardownCloses hasReadme hasConfig).map RestartAction.beginClose
    ++ [RestartAction.awaitCloses, RestartAction.clearConsoleOrLog,
        RestartAction.invokeRebuild]

/-- The callback `watchFiles` passes to `watchConfiguration` (watch.js lines
275-287): rebind `runReview` to a no-op, clear the suppression timer, start
and await the four closes, call `rebuildAndRewatch`. -/
def configCallbackScript (hasReadme : Bool) : List RestartAction :=
  [RestartAction.disableReview, RestartAction.clearSuppressionTimer]
    ++ (configCallbackCloses hasReadme).map RestartAction.beginClose
    ++ [RestartAction.awaitCloses, RestartAction.invokeRebuild]

/-- The configuration change handler's actions (watch.js lines 319-333):
`await configurationWatcher.close()` first, then clear the console / log,
then invoke the callback built in `watchFiles`. -/
def configRestartScript (hasReadme : Bool) : List RestartAction :=
  [RestartAction.beginClose Handle.configurationFiles, RestartAction.awaitCloses,
   RestartAction.clearConsoleOrLog]
    ++ configCallbackScript hasReadme

/-- Whether an action starts a handle close. -/
def RestartAction.isBeginClose : RestartAction → Bool
  | .beginClose _ => true
  | _ => false

/-- No handle close is started before `runReview` is rebound to a no-op. -/
def disablesReviewBeforeAnyClose (script : List RestartAction) : Bool :=
  (script.takeWhile (fun a => a != RestartAction.disableReview)).all
    (fun a => !a.isBeginClose)

/-- The handles whose close is started before `runReview` is rebound. -/
def closesBeforeDisable (script : List RestartAction) : List Handle :=
  (script.takeWhile (fun a => a != RestartAction.disableReview)).filterMap
    (fun a => match a with
      | RestartAction.beginClose h => some h
      | _ => none)

/-- Whether `runReview` still forwards to the engine after the first `k`
actions of a script: it does until `disableReview` has executed. -/
def reviewEnabledAt (script : List RestartAction) (k : Nat) : Bool :=
  !((script.take k).contains RestartAction.disableReview)

/-- Observable outcome of one manifest `change` event. -/
structure ManifestChangeResult where
  elmJsonContent : Json
  reviewEnabled : Bool
  closedHandles : List Handle
  rebuildInvoked : Bool

/-- The manifest change handler (watch.js lines 69-109): re-read the
manifest, compare `JSON.stringify` of the new and cached values; when they
differ, store the new value, disable reviews, close the handles of
`manifestTeardownCloses` and invoke `rebuildAndRewatch`; when they are equal,
do nothing. -/
def elmJsonChangeHandler (elmJsonContent newValue : Json)
    (hasReadme hasConfig : Bool) : ManifestChangeResult :=
  if Json.stringify newValue ≠ Json.stringify elmJsonContent then
    { elmJsonContent := newValue
      reviewEnabled := false
      closedHandles := manifestTeardownCloses hasReadme hasConfig
      rebuildInvoked := true }
  else
    { elmJsonContent := elmJsonContent
      reviewEnabled := true
      closedHandles := []
      rebuildInvoked := false }

/-- The chokidar event kinds the watchers subscribe to. -/
inductive EventKind where
  | add
  | change
  | unlink
  | error
deriving DecidableEq, Repr

/-- Tags for the handler functions passed to `.on(...)`; `fatalOnError` is
the `onError` callback supplied to `watchFiles`. -/
inductive HandlerTag where
  | manifestChangeRestart
  | readmeAddCollect
  | readmeChangeCollect
  | fileAddCollect
  | fileChangeCollect
  | fileUnlinkRemove
  | suppressionDebouncedRefresh
  | configurationChangeRestart
  | fatalOnError
deriving DecidableEq, Repr

/-- The `.on(event, handler)` registrations of each watcher, transcribed from
the source: `elmJsonWatcher` registers only `change` (lines 65-109);
`readmeWatcher` registers `add`, `change`, `error` (lines 111-144);
`fileWatcher` registers `add`, `change`, `unlink`, `error` (lines 146-238);
`suppressedErrorsWatcher` registers `add`, `change`, `unlink`, `error`
(lines 259-269); `configurationWatcher` registers only `change`
(lines 317-333). -/
def registrationsOf : Handle → List (EventKind × HandlerTag)
  | Handle.manifest => [(EventKind.change, HandlerTag.manifestChangeRestart)]
  | Handle.readme =>
      [(EventKind.add, HandlerTag.readmeAddCollect),
       (EventKind.change, HandlerTag.readmeChangeCollect),
       (EventKind.error, HandlerTag.fatalOnError)]
  | Handle.sourceFiles =>
      [(EventKind.add, HandlerTag.fileAddCollect),
       (EventKind.change, HandlerTag.fileChangeCollect),
       (EventKind.unlink, HandlerTag.fileUnlinkRemove),
       (EventKind.error, HandlerTag.fatalOnError)]
  | Handle.suppressionFolder =>
      [(EventKind.add, HandlerTag.suppressionDebouncedRefresh),
       (EventKind.change, HandlerTag.suppressionDebouncedRefresh),
       (EventKind.unlink, HandlerTag.suppressionDebouncedRefresh),
       (EventKind.error, HandlerTag.fatalOnError)]
  | Handle.configurationFiles =>
      [(EventKind.change, HandlerTag.configurationChangeRestart)]

/-- A cached source file record; `ast` stands for the opaque parsed
representation (this module only ever resets it to `null`, modelled `none`). -/
structure ElmFile where
  path : String
  source : String
  ast : Option Nat
deriving DecidableEq, Repr

/-- The process-wide file cache, keyed by normalized path. -/
abbrev FileCache := List ElmFile

/-- Modelled from the spec: `AppState.getFileFromMemoryCache` lives in
`lib/state.js`, which is not under `src/`; per spec section 4.2 it is the
FileCache `lookup(path)` returning the cached record for the path, if any. -/
def getFileFromMemoryCache (cache : FileCache) (relativePath : String) :
    Option ElmFile :=
  cache.find? (fun f => f.path == relativePath)

/-- In-place mutation of the cached record for a path (the handlers' comment
reads `NOTE: Mutates the file cache`); in this pure embedding the mutation is
a keyed replacement. -/
def setFile (cache : FileCache) (relativePath : String) (f : ElmFile) :
    FileCache :=
  cache.map (fun g => if g.path == relativePath then f else g)

/-- Modelled from the spec: `AppState.filesWereUpdated` lives in
`lib/state.js`, which is not under `src/`; per spec sections 4.2 and 4.3 it
registers the given records in the FileCache keyed by path (upsert). -/
def filesWereUpdated (cache : FileCache) (files : List ElmFile) : FileCache :=
  files.foldl
    (fun c f =>
      if c.any (fun g => g.path == f.path) then setFile c f.path f else c ++ [f])
    cache

/-- Messages sent to the analysis engine through `app.ports`. -/
inductive PortMessage where
  | collectFile (file : ElmFile)
  | removeFile (path : String)
deriving DecidableEq, Repr

/-- Observable outcome of one source-file event handler run: the cache after
the run, the records passed to `AppState.filesWereUpdated`, the port messages
sent, and whether `runReview()` was invoked. -/
structure HandlerResult where
  cache : FileCache
  registered : List ElmFile
  sent : List PortMessage
  reviewRequested : Bool
deriving DecidableEq, Repr

/-- The `fileWatcher` `change` handler (watch.js lines 199-226): look the
normalized path up in the cache, falling back to a fresh record with empty
source; re-read the content; when it differs from the record's source, mutate
the record (clearing `ast`), send `collectFile` and request a review; when it
is equal, do nothing. The fresh fallback record is never registered. -/
def fileChangeHandler (cache : FileCache) (relativePath newSource : String) :
    HandlerResult :=
  let cached := getFileFromMemoryCache cache relativePath
  let elmFile := cached.getD { path := relativePath, source := "", ast := none }
  if elmFile.source = newSource then
    { cache := cache, registered := [], sent := [], reviewRequested := false }
  else
    let updated : ElmFile := { elmFile with source := newSource, ast := none }
    { cache := if cached.isSome then setFile cache relativePath updated else cache
      registered := []
      sent := [PortMessage.collectFile updated]
      reviewRequested := true }

/-- The `fileWatcher` `add` handler (watch.js lines 165-198): look the path
up in the cache; when absent, build a fresh record and remember that the file
is new; re-read the content and mutate the record when it differs; register
the record through `AppState.filesWereUpdated` only when the file is new;
always send `collectFile` and request a review. -/
def fileAddHandler (cache : FileCache) (relativePath newSource : String) :
    HandlerResult :=
  let cached := getFileFromMemoryCache cache relativePath
  let isNewFile := cached.isNone
  let elmFile0 := cached.getD { path := relativePath, source := "", ast := none }
  let elmFile :=
    if elmFile0.source = newSource then elmFile0
    else { elmFile0 with source := newSource, ast := none }
  let cacheAfterMutation :=
    if cached.isSome && !(elmFile0.source == newSource) then
      setFile cache relativePath elmFile
    else cache
  { cache :=
      if isNewFile then filesWereUpdated cacheAfterMutation [elmFile]
      else cacheAfterMutation
    registered := if isNewFile then [elmFile] else []
    sent := [PortMessage.collectFile elmFile]
    reviewRequested := true }

/-- The `fileWatcher` `unlink` handler (watch.js lines 227-237): send
`removeFile` for the normalized path and request a review; the cache is not
touched. -/
def fileUnlinkHandler (cache : FileCache) (relativePath : String) :
    HandlerResult :=
  { cache := cache
    registered := []
    sent := [PortMessage.removeFile relativePath]
    reviewRequested := true }

/-- The debounce delay of `updateSuppressedErrors`: `setTimeout(..., 20)`. -/
def debounceDelay : Nat := 20

/-- One `updateSuppressedErrors` call at time `now` (watch.js lines 243-257):
`clearTimeout` discards any pending timer and `setTimeout` schedules the
refresh for `now + 20`. -/
def updateSuppressedErrorsStep (now : Nat) (_pending : Option Nat) :
    Option Nat :=
  some (now + debounceDelay)

/-- Run a timeline of suppression-folder event times against the debounce
state, returning the times at which the refresh callback fires: a pending
timer due at or before the next event fires first; each event then
reschedules; a timer still pending after the last event fires at its due
time. -/
def debounceRun : List Nat → Option Nat → List Nat
  | [], pending => pending.toList
  | e :: rest, pending =>
      (match pending with
        | some t => if t ≤ e then [t] else []
        | none => []) ++ debounceRun rest (updateSuppressedErrorsStep e pending)

/-- A burst: a nonempty strictly increasing event timeline whose consecutive
gaps are all shorter than the debounce delay. -/
def isBurst : List Nat → Bool
  | [] => false
  | [_] => true
  | a :: b :: rest =>
      decide (a < b) && decide (b - a < debounceDelay) && isBurst (b :: rest)

/-- The time of the last event of a timeline (0 for the empty timeline). -/
def lastEventTime : List Nat → Nat
  | [] => 0
  | [a] => a
  | _ :: b :: rest => lastEventTime (b :: rest)

/-- The process-wide stdin-flush state: the module-level `isFlushingStdio`
flag and the number of `readable` listeners installed on `process.stdin`. -/
structure StdioState where
  isFlushingStdio : Bool
  flushListeners : Nat
deriving DecidableEq, Repr

/-- The state at process start: flag clear, no listener installed. -/
def initialStdioState : StdioState :=
  { isFlushingStdio := false, flushListeners := 0 }

/-- The stdin-flush guard run by every `watchFiles` call (watch.js lines
52-63): when `isFlushingStdio` is clear, install the draining listener and
set the flag; otherwise do nothing. -/
def watchFilesStdioSetup (s : StdioState) : StdioState :=
  if !s.isFlushingStdio then
    { isFlushingStdio := true, flushListeners := s.flushListeners + 1 }
  else s

/-- Modelled from the spec: `OsHelpers.makePathOsAgnostic` lives in
`lib/os-helpers.js`, which is not under `src/`; per spec section 4.1 the
PathNormalizer canonicalizes path separators, modelled as replacing
backslashes with forward slashes. -/
def makePathOsAgnostic (p : String) : String :=
  p.replace "\\" "/"

/-- The options `watchFiles` passes to `chokidar.watch` for a watcher. -/
structure WatchConfig where
  globs : List String
  ignored : List String
  ignoreInitial : Bool
deriving DecidableEq, Repr

/-- The `ignored` list of the source-files watcher (watch.js lines 156-161):
a fixed literal, not derived from any option. -/
def fileWatcherIgnored : List String :=
  ["node_modules", "elm-stuff", ".*", "**/ElmjutsuDumMyM0DuL3.elm"]

/-- The configuration of the source-files watcher (watch.js lines 146-164):
one `directory/**/*.elm` glob per source directory, the fixed `ignored`
list, and `ignoreInitial`. -/
def fileWatcherConfig (sourceDirectories : List String) : WatchConfig :=
  { globs :=
      sourceDirectories.map
        (fun directory => makePathOsAgnostic (directory ++ "/**/*.elm"))
    ignored := fileWatcherIgnored
    ignoreInitial := true }

/-- String prefix test through character lists, so that concrete instances
evaluate inside the kernel. -/
def strStartsWith (s pre : String) : Bool :=
  pre.data.isPrefixOf s.data

/-- String suffix test through character lists. -/
def strEndsWith (s suf : String) : Bool :=
  suf.data.isSuffixOf s.data

/-- Dropping a string's first characters, through character lists. -/
def strDrop (s : String) (n : Nat) : String :=
  String.mk (s.data.drop n)

/-- Modelled from the spec: the external watch capability's ignore matching,
on paths given as segment lists. The pattern `.*` excludes any path with a
dot-leading segment; a `**/name` pattern excludes any path whose basename is
`name`; a bare directory name excludes any path containing it as a segment. -/
def ignoredPatternMatches (pattern : String) (segments : List String) : Bool :=
  if pattern = ".*" then segments.any (fun s => strStartsWith s ".")
  else if strStartsWith pattern "**/" then
    segments.getLastD "" == strDrop pattern 3
  else segments.contains pattern

/-- Whether any pattern of the ignore list excludes the path. -/
def pathIsIgnored (patterns : List String) (segments : List String) : Bool :=
  patterns.any (fun pattern => ignoredPatternMatches pattern segments)

/-- Modelled from the spec: whether a path matches some source directory's
`directory/**/*.elm` glob — the directory's segments are a proper initial
segment of the path and the basename has the `.elm` extension. -/
def matchesSourceGlob (sourceDirSegments : List (List String))
    (segments : List String) : Bool :=
  sourceDirSegments.any
    (fun d =>
      d.isPrefixOf segments && decide (d.length < segments.length)
        && strEndsWith (segments.getLastD "") ".elm")

/-- Modelled from the spec: the external watch capability delivers an event
for a path exactly when the path matches one of the watcher's globs and no
`ignored` pattern excludes it. -/
def sourceFileEventDelivered (sourceDirSegments : List (List String))
    (ignored : List String) (segments : List String) : Bool :=
  matchesSourceGlob sourceDirSegments segments
    && !(pathIsIgnored ignored segments)

/-- C1 counterexample: on the ConfigurationChanged trigger the script starts
and awaits the configuration watcher's close before `runReview` is rebound,
so the review-enabled flag is still set at that suspension point — the claim
that both triggers disable reviews before any teardown begins is false at the
configuration trigger (with a readme watcher present). -/
theorem configuration_restart_closes_before_disable :
    disablesReviewBeforeAnyClose (Watch.configRestartScript true) = false
      ∧ (Watch.configRestartScript true).take 2
          = [Watch.RestartAction.beginClose Watch.Handle.configurationFiles,
             Watch.RestartAction.awaitCloses]
      ∧ Watch.reviewEnabledAt (Watch.configRestartScript true) 2 = true := by
  decide

/-- C1 amended: on ManifestChanged, `runReview` is rebound to a no-op before
any handle close begins; on ConfigurationChanged, the ConfigurationFiles
handle's close begins (and is awaited) before the rebinding — a review
request issued at that suspension point still forwards — and the rebinding
precedes the teardown of the remaining handles (the callback script disables
before any of its closes). -/
theorem restart_disable_ordering :
    ∀ hasReadme hasConfig : Bool,
      disablesReviewBeforeAnyClose
          (Watch.manifestRestartScript hasReadme hasConfig) = true
        ∧ Watch.closesBeforeDisable (Watch.configRestartScript hasReadme)
            = [Watch.Handle.configurationFiles]
        ∧ Watch.reviewEnabledAt (Watch.configRestartScript hasReadme) 2 = true
        ∧ disablesReviewBeforeAnyClose (Watch.configCallbackScript hasReadme)
            = true := by
  decide

/-- C2 counterexample: a manifest-triggered restart with a configuration
watcher present does close the ConfigurationFiles handle — its close list
contains `configurationFiles`, contradicting the claim that the manifest
teardown does not attempt to close it. -/
theorem manifest_teardown_closes_configuration_watcher :
    Watch.Handle.configurationFiles ∈
      (Watch.elmJsonChangeHandler (Watch.Json.num 1) (Watch.Json.num 2)
          true true).closedHandles := by
  decide

/-- C2 amended: the manifest teardown closes the Manifest, Readme (when
watched), SourceFiles and SuppressionFolder handles and also the
ConfigurationFiles handle when a configuration watcher exists; it is the
configuration-change path whose callback omits the ConfigurationFiles handle,
that handle having been closed by the configuration change handler itself as
its first action. -/
theorem teardown_close_sets :
    (Watch.elmJsonChangeHandler (Watch.Json.num 1) (Watch.Json.num 2)
          true true).closedHandles
        = [Watch.Handle.manifest, Watch.Handle.readme, Watch.Handle.sourceFiles,
           Watch.Handle.suppressionFolder, Watch.Handle.configurationFiles]
      ∧ (Watch.elmJsonChangeHandler (Watch.Json.num 1) (Watch.Json.num 2)
          false true).closedHandles
        = [Watch.Handle.manifest, Watch.Handle.sourceFiles,
           Watch.Handle.suppressionFolder, Watch.Handle.configurationFiles]
      ∧ Watch.Handle.configurationFiles ∉ Watch.configCallbackCloses true
      ∧ Watch.Handle.configurationFiles ∉ Watch.configCallbackCloses false
      ∧ (Watch.configRestartScript true).head?
          = some (Watch.RestartAction.beginClose
              Watch.Handle.configurationFiles) := by
  decide

/-- C4 counterexample: the manifest watcher and the configuration watcher
register no handler for the `error` event at all, so they do not propagate
watch faults to the supplied `onError` callback. -/
theorem manifest_watcher_has_no_error_handler :
    (Watch.registrationsOf Watch.Handle.manifest).all
        (fun r => r.1 != Watch.EventKind.error) = true
      ∧ (Watch.registrationsOf Watch.Handle.configurationFiles).all
          (fun r => r.1 != Watch.EventKind.error) = true := by
  decide

/-- C4 amended: exactly the Readme, SourceFiles and SuppressionFolder
watchers register an `error` handler, and in each case the sole `error`
handler is the supplied fatal `onError` callback (no retry handler, no
restart handler); the Manifest and ConfigurationFiles watchers register no
`error` handler. -/
theorem error_propagation_only_three_handles :
    (Watch.registrationsOf Watch.Handle.readme).filter
          (fun r => r.1 == Watch.EventKind.error)
        = [(Watch.EventKind.error, Watch.HandlerTag.fatalOnError)]
      ∧ (Watch.registrationsOf Watch.Handle.sourceFiles).filter
            (fun r => r.1 == Watch.EventKind.error)
          = [(Watch.EventKind.error, Watch.HandlerTag.fatalOnError)]
      ∧ (Watch.registrationsOf Watch.Handle.suppressionFolder).filter
            (fun r => r.1 == Watch.EventKind.error)
          = [(Watch.EventKind.error, Watch.HandlerTag.fatalOnError)]
      ∧ (Watch.registrationsOf Watch.Handle.manifest).filter
            (fun r => r.1 == Watch.EventKind.error) = []
      ∧ (Watch.registrationsOf Watch.Handle.configurationFiles).filter
            (fun r => r.1 == Watch.EventKind.error) = [] := by
  decide

/-- Iterating the stdin-flush guard from the initial state at least once
always yields the state with the flag set and exactly one listener. -/
theorem stdioSetup_iterate_succ (m : Nat) :
    watchFilesStdioSetup^[m + 1] initialStdioState
      = { isFlushingStdio := true, flushListeners := 1 } := by
  induction m with
  | zero => rfl
  | succ k ih =>
      rw [Function.iterate_succ_apply', ih]
      rfl

/-- C8: across any sequence of one or more `watchFiles` calls (including
those made by restart rebuilds), the stdin-draining listener is installed
exactly once, the process-wide `isFlushingStdio` flag is set, and a further
`watchFiles` call leaves the state unchanged (the flag is never reset). -/
theorem stdin_flush_listener_installed_once (n : Nat) (h : 1 ≤ n) :
    (watchFilesStdioSetup^[n] initialStdioState).flushListeners = 1
      ∧ (watchFilesStdioSetup^[n] initialStdioState).isFlushingStdio = true
      ∧ watchFilesStdioSetup (watchFilesStdioSetup^[n] initialStdioState)
          = watchFilesStdioSetup^[n] initialStdioState := by
  obtain ⟨m, rfl⟩ : ∃ m, n = m + 1 := ⟨n - 1, by omega⟩
  rw [stdioSetup_iterate_succ]
  exact ⟨rfl, rfl, rfl⟩

/-- C8 witness: three `watchFiles` calls install the listener exactly once
and leave the flag set. -/
theorem stdin_flush_listener_installed_once_witness :
    1 ≤ 3
      ∧ ((watchFilesStdioSetup^[3] initialStdioState).flushListeners = 1
          ∧ (watchFilesStdioSetup^[3] initialStdioState).isFlushingStdio = true
          ∧ watchFilesStdioSetup (watchFilesStdioSetup^[3] initialStdioState)
              = watchFilesStdioSetup^[3] initialStdioState) :=
  ⟨by decide, stdin_flush_listener_installed_once 3 (by decide)⟩

/-- C5: a manifest `change` event whose re-read content serializes exactly
like the cached content is ignored entirely: no handle is closed, the rebuild
callback is not invoked, reviews stay enabled (no ManifestChanged trigger),
and the cached manifest content is unchanged. -/
theorem manifest_equal_content_ignored (cached newValue : Json)
    (hasReadme hasConfig : Bool)
    (h : Json.stringify newValue = Json.stringify cached) :
    (elmJsonChangeHandler cached newValue hasReadme hasConfig).closedHandles = []
      ∧ (elmJsonChangeHandler cached newValue hasReadme hasConfig).rebuildInvoked
          = false
      ∧ (elmJsonChangeHandler cached newValue hasReadme hasConfig).reviewEnabled
          = true
      ∧ (elmJsonChangeHandler cached newValue hasReadme hasConfig).elmJsonContent
          = cached := by
  simp [elmJsonChangeHandler, h]

/-- C5 witness: re-saving an identical `elm.json` object closes nothing,
keeps reviews enabled and leaves the cached content in place. -/
theorem manifest_equal_content_ignored_witness :
    Json.stringify (Json.obj [("type", Json.str "application")])
        = Json.stringify (Json.obj [("type", Json.str "application")])
      ∧ ((elmJsonChangeHandler (Json.obj [("type", Json.str "application")])
            (Json.obj [("type", Json.str "application")]) true true).closedHandles
            = []
          ∧ (elmJsonChangeHandler (Json.obj [("type", Json.str "application")])
              (Json.obj [("type", Json.str "application")]) true true).rebuildInvoked
              = false
          ∧ (elmJsonChangeHandler (Json.obj [("type", Json.str "application")])
              (Json.obj [("type", Json.str "application")]) true true).reviewEnabled
              = true
          ∧ (elmJsonChangeHandler (Json.obj [("type", Json.str "application")])
              (Json.obj [("type", Json.str "application")]) true true).elmJsonContent
              = Json.obj [("type", Json.str "application")]) :=
  ⟨rfl, manifest_equal_content_ignored _ _ true true rfl⟩

/-- C3: a `change` event on a cached source file whose re-read content equals
the cached source sends no port message, requests no review and leaves the
cache unchanged; content equality is the sole signal — with any different
content the same handler sends `collectFile` for the mutated record and
requests a review. -/
theorem change_equal_content_is_silent (cache : FileCache) (p : String)
    (rec : ElmFile) (s : String)
    (h : getFileFromMemoryCache cache p = some rec) (hs : s ≠ rec.source) :
    (fileChangeHandler cache p rec.source).sent = []
      ∧ (fileChangeHandler cache p rec.source).reviewRequested = false
      ∧ (fileChangeHandler cache p rec.source).cache = cache
      ∧ (fileChangeHandler cache p s).sent
          = [PortMessage.collectFile { rec with source := s, ast := none }]
      ∧ (fileChangeHandler cache p s).reviewRequested = true := by
  have hs' : rec.source ≠ s := Ne.symm hs
  simp [fileChangeHandler, h, hs']

/-- C3 witness: a touch-without-modification `change` event on a cached file
is absorbed silently, while a real edit notifies and requests a review. -/
theorem change_equal_content_is_silent_witness :
    getFileFromMemoryCache [⟨"A.elm", "module A", some 1⟩] "A.elm"
        = some ⟨"A.elm", "module A", some 1⟩
      ∧ ("module B" : String) ≠ "module A"
      ∧ ((fileChangeHandler [⟨"A.elm", "module A", some 1⟩] "A.elm" "module A").sent
            = []
          ∧ (fileChangeHandler [⟨"A.elm", "module A", some 1⟩] "A.elm"
              "module A").reviewRequested = false
          ∧ (fileChangeHandler [⟨"A.elm", "module A", some 1⟩] "A.elm"
              "module A").cache = [⟨"A.elm", "module A", some 1⟩]
          ∧ (fileChangeHandler [⟨"A.elm", "module A", some 1⟩] "A.elm"
              "module B").sent
              = [PortMessage.collectFile ⟨"A.elm", "module B", none⟩]
          ∧ (fileChangeHandler [⟨"A.elm", "module A", some 1⟩] "A.elm"
              "module B").reviewRequested = true) :=
  ⟨by decide, by decide,
   change_equal_content_is_silent [⟨"A.elm", "module A", some 1⟩] "A.elm"
     ⟨"A.elm", "module A", some 1⟩ "module B" (by decide) (by decide)⟩

/-- C9: a `change` event on a path absent from the memory cache never inserts
a record — the handler passes nothing to `filesWereUpdated` and the cache is
unchanged — yet with non-empty content it sends `collectFile` for a fresh
record and requests a review; running the same event again on the resulting
cache re-notifies and re-requests a review even though the content is
identical. -/
theorem change_on_uncached_path_never_caches (cache : FileCache)
    (p newSource : String)
    (h : getFileFromMemoryCache cache p = none) (hne : newSource ≠ "") :
    (fileChangeHandler cache p newSource).cache = cache
      ∧ (fileChangeHandler cache p newSource).registered = []
      ∧ (fileChangeHandler cache p newSource).sent
          = [PortMessage.collectFile
              { path := p, source := newSource, ast := none }]
      ∧ (fileChangeHandler cache p newSource).reviewRequested = true
      ∧ (fileChangeHandler (fileChangeHandler cache p newSource).cache p
            newSource).sent
          = [PortMessage.collectFile
              { path := p, source := newSource, ast := none }]
      ∧ (fileChangeHandler (fileChangeHandler cache p newSource).cache p
            newSource).reviewRequested = true := by
  have h0 : ("" : String) ≠ newSource := Ne.symm hne
  simp [fileChangeHandler, h, h0]

/-- C9 witness: two identical `change` events on a never-added path both
notify and both request a review, and the cache stays empty. -/
theorem change_on_uncached_path_never_caches_witness :
    getFileFromMemoryCache ([] : FileCache) "B.elm" = none
      ∧ ("x" : String) ≠ ""
      ∧ ((fileChangeHandler ([] : FileCache) "B.elm" "x").cache = []
          ∧ (fileChangeHandler ([] : FileCache) "B.elm" "x").registered = []
          ∧ (fileChangeHandler ([] : FileCache) "B.elm" "x").sent
              = [PortMessage.collectFile
                  { path := "B.elm", source := "x", ast := none }]
          ∧ (fileChangeHandler ([] : FileCache) "B.elm" "x").reviewRequested
              = true
          ∧ (fileChangeHandler
                (fileChangeHandler ([] : FileCache) "B.elm" "x").cache "B.elm"
                "x").sent
              = [PortMessage.collectFile
                  { path := "B.elm", source := "x", ast := none }]
          ∧ (fileChangeHandler
                (fileChangeHandler ([] : FileCache) "B.elm" "x").cache "B.elm"
                "x").reviewRequested = true) :=
  ⟨by decide, by decide,
   change_on_uncached_path_never_caches [] "B.elm" "x" (by decide) (by decide)⟩

/-- C10: an `unlink` event sends a removal notification and requests a review
but leaves the cache unchanged — the record for that path remains — so a
subsequent `add` for the same path treats the file as already known (it
passes nothing to `filesWereUpdated`) and compares the re-read content
against the stale cached source. -/
theorem unlink_keeps_cache_add_finds_stale_record (cache : FileCache)
    (p newSource : String) (rec : ElmFile)
    (h : getFileFromMemoryCache cache p = some rec) :
    (fileUnlinkHandler cache p).cache = cache
      ∧ (fileUnlinkHandler cache p).sent = [PortMessage.removeFile p]
      ∧ (fileUnlinkHandler cache p).reviewRequested = true
      ∧ getFileFromMemoryCache (fileUnlinkHandler cache p).cache p = some rec
      ∧ (fileAddHandler (fileUnlinkHandler cache p).cache p newSource).registered
          = []
      ∧ (fileAddHandler (fileUnlinkHandler cache p).cache p newSource).sent
          = [PortMessage.collectFile
              (if rec.source = newSource then rec
               else { rec with source := newSource, ast := none })]
      ∧ (fileAddHandler (fileUnlinkHandler cache p).cache p
            newSource).reviewRequested = true := by
  simp [fileUnlinkHandler, fileAddHandler, h]

/-- C10 witness: after an `unlink` of a cached file, re-adding it with new
content finds the stale record, does not re-register it, and notifies with
the record mutated from the stale source. -/
theorem unlink_keeps_cache_add_finds_stale_record_witness :
    getFileFromMemoryCache [⟨"C.elm", "old", some 2⟩] "C.elm"
        = some ⟨"C.elm", "old", some 2⟩
      ∧ ((fileUnlinkHandler [⟨"C.elm", "old", some 2⟩] "C.elm").cache
            = [⟨"C.elm", "old", some 2⟩]
          ∧ (fileUnlinkHandler [⟨"C.elm", "old", some 2⟩] "C.elm").sent
              = [PortMessage.removeFile "C.elm"]
          ∧ (fileUnlinkHandler [⟨"C.elm", "old", some 2⟩] "C.elm").reviewRequested
              = true
          ∧ getFileFromMemoryCache
              (fileUnlinkHandler [⟨"C.elm", "old", some 2⟩] "C.elm").cache
              "C.elm" = some ⟨"C.elm", "old", some 2⟩
          ∧ (fileAddHandler
                (fileUnlinkHandler [⟨"C.elm", "old", some 2⟩] "C.elm").cache
                "C.elm" "new").registered = []
          ∧ (fileAddHandler
                (fileUnlinkHandler [⟨"C.elm", "old", some 2⟩] "C.elm").cache
                "C.elm" "new").sent
              = [PortMessage.collectFile
                  (if ("old" : String) = "new" then ⟨"C.elm", "old", some 2⟩
                   else ⟨"C.elm", "new", none⟩)]
          ∧ (fileAddHandler
                (fileUnlinkHandler [⟨"C.elm", "old", some 2⟩] "C.elm").cache
                "C.elm" "new").reviewRequested = true) :=
  ⟨by decide,
   unlink_keeps_cache_add_finds_stale_record [⟨"C.elm", "old", some 2⟩] "C.elm"
     "new" ⟨"C.elm", "old", some 2⟩ (by decide)⟩

/-- After any event of a burst has scheduled a refresh that is not yet due,
running the rest of the burst fires exactly once, at the last event plus the
debounce delay. -/
theorem debounceRun_burst_aux (rest : List Nat) :
    ∀ b tb : Nat, isBurst (b :: rest) = true → b < tb →
      debounceRun (b :: rest) (some tb)
        = [lastEventTime (b :: rest) + debounceDelay] := by
  induction rest with
  | nil =>
      intro b tb _ hb
      simp [debounceRun, updateSuppressedErrorsStep, lastEventTime,
        Nat.not_le.mpr hb]
  | cons c rest ih =>
      intro b tb hburst hb
      rw [isBurst] at hburst
      simp only [Bool.and_eq_true, decide_eq_true_eq] at hburst
      obtain ⟨⟨hbc, hgap⟩, htail⟩ := hburst
      have hnext : c < b + debounceDelay := by
        unfold debounceDelay at hgap ⊢
        omega
      have step :
          debounceRun (b :: c :: rest) (some tb)
            = debounceRun (c :: rest) (some (b + debounceDelay)) := by
        simp [debounceRun, updateSuppressedErrorsStep, Nat.not_le.mpr hb]
      rw [step, ih c (b + debounceDelay) htail hnext]
      rfl

/-- C6: over a burst of suppression-folder events (each event replacing the
pending refresh and restarting the 20-unit quiescence timer), exactly one
downstream refresh fires, at the last event's time plus the delay — hence the
suppression data it sends is read after the last event of the burst — and the
debounced refresh is the registered handler for all of `add`, `change` and
`unlink` on the suppression watcher. -/
theorem suppression_burst_single_refresh (events : List Nat)
    (h : isBurst events = true) :
    debounceRun events none = [lastEventTime events + debounceDelay]
      ∧ lastEventTime events < lastEventTime events + debounceDelay
      ∧ ((registrationsOf Handle.suppressionFolder).filter
            (fun r => r.2 == HandlerTag.suppressionDebouncedRefresh)).map
          Prod.fst
          = [EventKind.add, EventKind.change, EventKind.unlink] := by
  refine ⟨?_, by unfold debounceDelay; omega, by decide⟩
  match events with
  | [] => simp [isBurst] at h
  | [e] => simp [debounceRun, updateSuppressedErrorsStep, lastEventTime]
  | e :: c :: rest =>
      rw [isBurst] at h
      simp only [Bool.and_eq_true, decide_eq_true_eq] at h
      obtain ⟨⟨hec, hgap⟩, htail⟩ := h
      have hnext : c < e + debounceDelay := by
        unfold debounceDelay at hgap ⊢
        omega
      have step :
          debounceRun (e :: c :: rest) none
            = debounceRun (c :: rest) (some (e + debounceDelay)) := by
        simp [debounceRun, updateSuppressedErrorsStep]
      rw [step, debounceRun_burst_aux rest c (e + debounceDelay) htail hnext]
      rfl

/-- C6 witness: three suppression-folder events 5 time units apart yield
exactly one refresh, 20 units after the last event. -/
theorem suppression_burst_single_refresh_witness :
    isBurst [0, 5, 10] = true
      ∧ (debounceRun [0, 5, 10] none = [lastEventTime [0, 5, 10] + debounceDelay]
          ∧ lastEventTime [0, 5, 10] < lastEventTime [0, 5, 10] + debounceDelay
          ∧ ((registrationsOf Handle.suppressionFolder).filter
                (fun r => r.2 == HandlerTag.suppressionDebouncedRefresh)).map
              Prod.fst
              = [EventKind.add, EventKind.change, EventKind.unlink]) :=
  ⟨by decide, suppression_burst_single_refresh [0, 5, 10] (by decide)⟩

/-- C7: the source-files watcher's exclusion list is the fixed constant
`fileWatcherIgnored`, identical for any two source-directory configurations,
and a path excluded by it never has an event delivered, even when it matches
a source-directory glob. -/
theorem excluded_paths_never_notify (sourceDirectories otherDirectories :
      List String) (sourceDirSegments : List (List String))
    (segments : List String)
    (h : pathIsIgnored fileWatcherIgnored segments = true) :
    (fileWatcherConfig sourceDirectories).ignored = fileWatcherIgnored
      ∧ (fileWatcherConfig sourceDirectories).ignored
          = (fileWatcherConfig otherDirectories).ignored
      ∧ sourceFileEventDelivered sourceDirSegments
          (fileWatcherConfig sourceDirectories).ignored segments = false := by
  refine ⟨rfl, rfl, ?_⟩
  simp [sourceFileEventDelivered, fileWatcherConfig, h]

/-- C7 witness: `src/node_modules/Foo.elm` matches the `src/**/*.elm` glob
yet is excluded by the fixed list, so no event is delivered for it; the
ignore list is the same under a different source-directory configuration. -/
theorem excluded_paths_never_notify_witness :
    pathIsIgnored fileWatcherIgnored ["src", "node_modules", "Foo.elm"] = true
      ∧ matchesSourceGlob [["src"]] ["src", "node_modules", "Foo.elm"] = true
      ∧ ((fileWatcherConfig ["src"]).ignored = fileWatcherIgnored
          ∧ (fileWatcherConfig ["src"]).ignored
              = (fileWatcherConfig ["lib", "tests"]).ignored
          ∧ sourceFileEventDelivered [["src"]]
              (fileWatcherConfig ["src"]).ignored
              ["src", "node_modules", "Foo.elm"] = false) :=
  ⟨by decide, by decide,
   excluded_paths_never_notify ["src"] ["lib", "tests"] [["src"]]
     ["src", "node_modules", "Foo.elm"] (by decide)⟩

end Watch
